import Mathlib

/-! Verification of the compliance_utils repository: a shallow embedding of the
file-resolution, filtering, coverage, lint-dispatch and design-check logic of
the Python sources (helper_utils.py, coverage_check.py, code_compliance_check.py,
design_compliance_check.py, compliance_check.py, config.py), with theorems
settling the behavioural claims about them. -/

/-- File paths and other Python strings are modelled as lists of characters. -/
abbrev Str := List Char

/-- Convert a Lean string literal to the character-list model. -/
def cs (s : String) : Str := s.data

/-! ## config.py constants -/

/-- config.IGNORE_LIST: directory names skipped by the coverage check. -/
def IGNORE_LIST : List Str :=
  [cs "tests", cs "unitTests", cs "mockLib", cs "samples", cs "templates",
   cs "images", cs "docs"]

/-- config.CUT_OFF_CODE_COVERAGE_PCT: coverage below this is flagged. -/
def CUT_OFF_CODE_COVERAGE_PCT : Int := 80

/-- config.CODE_VALIDATOR_TO_MODULE_MAP: supported lint validators. -/
def CODE_VALIDATOR_TO_MODULE_MAP : List (Str × Str) :=
  [(cs "flake8", cs "flake8.api.legacy"), (cs "pylint", cs "pylint.epylint")]

/-- config.ERROR_MSG: Fore.RED + CROSS_MARK + Style.RESET_ALL (colorama codes). -/
def ERROR_MSG : Str := cs "\x1b[31m✘\x1b[0m"

/-! ## Python primitives used by the sources -/

/-- The whitespace characters recognised by Python str.split() with no argument. -/
def isPySpace (c : Char) : Bool :=
  c == ' ' || c == '\t' || c == '\n' || c == '\r' || c == '\x0b' || c == '\x0c'

/-- Helper for `pyStrSplit`: accumulate the current word (reversed) while scanning. -/
def pyStrSplitAux : Str → Str → List Str
  | [], acc => if acc.isEmpty then [] else [acc.reverse]
  | c :: rest, acc =>
    if isPySpace c then
      if acc.isEmpty then pyStrSplitAux rest []
      else acc.reverse :: pyStrSplitAux rest []
    else pyStrSplitAux rest (c :: acc)

/-- Python str.split() with no argument: split on whitespace runs, dropping
empty pieces. -/
def pyStrSplit (s : Str) : List Str := pyStrSplitAux s []

/-- Python str.split(sep) for a single-character separator: keeps empty pieces
(for example "".split(sep) is [""]); List.splitOn has the same semantics. -/
def pySplitSep (sep : Char) (s : Str) : List Str := s.splitOn sep

/-- Parse a run of decimal digits into a Nat; none if empty or non-digit. -/
def digitsToNat (s : Str) : Option Nat :=
  if s.isEmpty then none
  else if s.all Char.isDigit then
    some (s.foldl (fun n c => 10 * n + (c.toNat - '0'.toNat)) 0)
  else none

/-- Python int(str): strip surrounding whitespace, optional sign, decimal digits.
(Digit-group underscores are not modelled; no input in this code base uses them.) -/
def pyInt (s : Str) : Option Int :=
  let t := (s.dropWhile isPySpace).reverse.dropWhile isPySpace |>.reverse
  match t with
  | '-' :: rest => (digitsToNat rest).map (fun n => -(n : Int))
  | '+' :: rest => (digitsToNat rest).map (fun n => (n : Int))
  | _ => (digitsToNat t).map (fun n => (n : Int))

/-- Python os.path.dirname for POSIX paths: everything up to the last slash,
with trailing slashes stripped unless the head is all slashes. -/
def dirname (p : Str) : Str :=
  if p.contains '/' then
    let head := p.take (p.length - p.reverse.indexOf '/')
    if head.all (· == '/') then head
    else ((head.reverse.dropWhile (· == '/')).reverse)
  else []

/-- file_dir_name.split('/')[-1] as used by check_coverage's ignore-list test. -/
def lastSlashSegment (d : Str) : Str := (pySplitSep '/' d).getLastD []

/-! ## helper_utils.execute_shell_command -/

/-- The post-processing of captured stdout in helper_utils.execute_shell_command:
`list(filter(None, cmd.stdout.decode(utf-8).split(backslash-n)))`.
Python filter(None, xs) keeps the truthy elements, i.e. the non-empty strings. -/
def processStdout (s : Str) : List Str :=
  (s.splitOn '\n').filter (fun line => !line.isEmpty)

/-! ## helper_utils.filter_files -/

/-- The semantics of `re.match(".*.py$", s)` returning `m.group(0)`:
the match must start at the beginning; `.` never crosses a newline; `$`
matches at the end of the string or just before a terminal newline; the
pattern needs at least three characters, the last two being "py" (the dot
before "py" is unescaped, so any non-newline character is accepted there). -/
def pyMatchCore (t : Str) : Option Str :=
  if t.contains '\n' then none
  else if 3 ≤ t.length && ['p', 'y'].isSuffixOf t then some t
  else none

/-- `re.match(".*.py$", s).group(0)`: `$` may consume the position just before
a terminal newline, so the effective text is s without a trailing newline. -/
def pyMatch (s : Str) : Option Str :=
  pyMatchCore (if s.getLast? = some '\n' then s.dropLast else s)

/-- helper_utils.filter_files: keep the group(0) of each element matching
the Python-source regular expression. -/
def filter_files (files_list : List Str) : List Str :=
  files_list.filterMap pyMatch

/-! ## helper_utils git wrappers (modelled over an explicit git environment) -/

/-- The ambient git state an invocation sees: whether the working directory is
inside a repository, the current branch, the staged files, and the outcome of
a `git diff source...target --name-only` subprocess. -/
structure GitEnv where
  insideRepo : Bool
  currentBranch : Str
  staged : List Str
  diff : Str → Str → List Str

/-- helper_utils.NotValidGitRepoException. -/
inductive GitError where
  | notValidGitRepo
deriving DecidableEq

/-- helper_utils.get_files_to_be_committed. -/
def get_files_to_be_committed (env : GitEnv) : Except GitError (List Str) :=
  if env.insideRepo then .ok env.staged else .error .notValidGitRepo

/-- helper_utils.get_diff_between_branches.  The result pairs the returned file
list with the number of `git diff` subprocess invocations performed. -/
def get_diff_between_branches (env : GitEnv)
    (source_branch target_branch : Option Str) :
    Except GitError (List Str × Nat) :=
  if env.insideRepo then
    let src := source_branch.getD (cs "dev")
    let tgt := target_branch.getD env.currentBranch
    if src = tgt then .ok ([], 0)
    else .ok (env.diff src tgt, 1)
  else .error .notValidGitRepo

/-! ## compliance_check.Compliance.get_files_list -/

/-- The parsed command-line arguments of the abstract driver: a store-true
flag, an optional two-branch pair (nargs=2), an optional path list (nargs=1). -/
structure Args where
  pre_commit_check : Bool
  pre_merge_check : Option (Str × Str)
  path : Option (List Str)

/-- compliance_check.Compliance.get_files_list: pre-commit flag first, then
pre-merge pair, then explicit path (a None or empty path list is falsy),
otherwise the initial empty list. -/
def get_files_list (env : GitEnv) (args : Args) : Except GitError (List Str) :=
  if args.pre_commit_check then get_files_to_be_committed env
  else
    match args.pre_merge_check with
    | some (src, tgt) =>
      (get_diff_between_branches env (some src) (some tgt)).map Prod.fst
    | none =>
      match args.path with
      | some ps => if ps.isEmpty then .ok [] else .ok ps
      | none => .ok []

/-! ## coverage_check.CoverageCheckCompliance -/

/-- The distinct parent directories the coverage loop runs over: check_coverage
builds `coverage_dir_set` by adding os.path.dirname of every filtered file to a
set; iteration visits each distinct directory once (dedup models the set). -/
def coverageDirs (files_list : List Str) : List Str :=
  ((filter_files files_list).map dirname).dedup

/-- Number of CoverageCheckCompliance.get_coverage invocations performed by
check_coverage: one per element of the directory set. -/
def numCoverageRuns (files_list : List Str) : Nat :=
  (coverageDirs files_list).length

/-- Python dict lookup over an insertion-ordered pair list where a later
binding of the same key overwrites an earlier one. -/
def dictGet (pairs : List (Str × Str)) (k : Str) : Option Str :=
  (pairs.reverse.find? (fun p => p.1 == k)).map (·.2)

/-- CoverageCheckCompliance.get_coverage applied to the captured report lines:
keep the lines containing a percent sign and map the first whitespace-split
column (file name) to the last one (coverage percentage). -/
def get_coverage (cmd_output_list : List Str) : List (Str × Str) :=
  (cmd_output_list.filter (fun line => line.contains '%')).map
    (fun item => ((pyStrSplit item).headD [], (pyStrSplit item).getLastD []))

/-- The merged file-to-percentage dict built by check_coverage: get_coverage is
run once per distinct directory and the per-directory dicts are merged with
dict.update (later entries overwrite). `reportFor` is the stdout line list of
the coverage subprocess for a directory. -/
def file_to_coverage_pct_map (files_list : List Str)
    (reportFor : Str → List Str) : List (Str × Str) :=
  (coverageDirs files_list).flatMap (fun d => get_coverage (reportFor d))

/-- The violation set built by check_coverage's second loop: for every filtered
file whose parent-directory tail is not in IGNORE_LIST and that has a report
entry whose percentage (the entry minus its last character, parsed as int)
is below the cut-off, add "file -> percentage" to files_missing_coverage.
Parse failures are logged and skipped. -/
def files_missing_coverage (files_list : List Str)
    (reportFor : Str → List Str) : List Str :=
  let change_set := filter_files files_list
  let pctMap := file_to_coverage_pct_map files_list reportFor
  change_set.filterMap (fun file_name =>
    if IGNORE_LIST.contains (lastSlashSegment (dirname file_name)) then none
    else
      match dictGet pctMap file_name with
      | none => none
      | some pct =>
        match pyInt pct.dropLast with
        | none => none
        | some n =>
          if n < CUT_OFF_CODE_COVERAGE_PCT then
            some (file_name ++ cs " -> " ++ pct)
          else none)

/-! ## code_compliance_check.CodeCompliance.check -/

/-- Dict lookup for the validator map (a literal dict with distinct keys). -/
def mapLookup (m : List (Str × Str)) (k : Str) : Option Str :=
  (m.find? (fun p => p.1 == k)).map (·.2)

/-- compliance_check.ComplianceViolationException, split by raise site. -/
inductive ComplianceViolation where
  | unsupportedValidator (validators : List Str)
  | moduleIsNone (validator : Str)
deriving DecidableEq

/-- One validator-backend invocation performed by CodeCompliance.check. -/
structure Invocation where
  validator : Str
  modName : Str
  files : List Str
deriving DecidableEq

/-- The validator loop of CodeCompliance.check after the guard passed. -/
def runValidators (files_list : List Str) :
    List Str → List Invocation → List Invocation × Option ComplianceViolation
  | [], acc => (acc, none)
  | v :: rest, acc =>
    match mapLookup CODE_VALIDATOR_TO_MODULE_MAP v with
    | some m => runValidators files_list rest (acc ++ [⟨v, m, files_list⟩])
    | none => (acc, some (.moduleIsNone v))

/-- code_compliance_check.CodeCompliance.check: raise ComplianceViolationException
if any requested validator is not a key of CODE_VALIDATOR_TO_MODULE_MAP, else
invoke each validator in order.  The result pairs the invocation trace with
the exception raised, if any. -/
def codeComplianceCheck (code_validators files_list : List Str) :
    List Invocation × Option ComplianceViolation :=
  if code_validators.all
      (fun v => (mapLookup CODE_VALIDATOR_TO_MODULE_MAP v).isSome) then
    runValidators files_list code_validators []
  else ([], some (.unsupportedValidator code_validators))

/-! ## design_compliance_check.DesignCompliance -/

/-- Python runtime errors surfaced by the design-compliance model. -/
inductive PyError where
  | attributeError (name : Str)
deriving DecidableEq

/-- The instance state of a DesignCompliance object: __init__ stores
default_checks (when truthy) under the attribute name _defaultTcChecks. -/
structure DesignComplianceState where
  defaultTcChecks : Option (List Str)
deriving DecidableEq

/-- DesignCompliance.__init__: `if default_checks: self._defaultTcChecks =
default_checks[:]` (an empty list is falsy, so nothing is stored then). -/
def designComplianceInit (default_checks : Option (List Str)) :
    DesignComplianceState :=
  match default_checks with
  | some l => if l.isEmpty then ⟨none⟩ else ⟨some l⟩
  | none => ⟨none⟩

/-- The registry names, in decorator execution order within the class body:
OtherComplianceCheck is registered first, DebugEnabledCheck second. -/
def registerNames : List Str := [cs "OtherComplianceCheck", cs "DebugEnabledCheck"]

/-- Class-level attributes of DesignCompliance holding name lists: only
_default_checks exists (register, check_types, inspectMap hold other types). -/
def classChecksAttr (name : Str) : Option (List Str) :=
  if name == cs "_default_checks" then
    some [cs "DebugEnabledCheck", cs "OtherComplianceCheck"]
  else none

/-- Python attribute lookup for list-of-names attributes: instance dict first,
then the class dict; none models AttributeError. -/
def getChecksAttr (st : DesignComplianceState) (name : Str) :
    Option (List Str) :=
  if name == cs "_defaultTcChecks" then
    match st.defaultTcChecks with
    | some v => some v
    | none => classChecksAttr name
  else classChecksAttr name

/-- design_compliance_check.DesignCompliance.check_files: for each file, for
each registered name, run the check when the name is in
self._defaultInfraChecks.  Reading that attribute is modelled by
getChecksAttr; a failed lookup is an AttributeError.  The ok result is the
list of (check name, file) dispatches actually executed. -/
def check_files (st : DesignComplianceState) (files_list : List Str) :
    Except PyError (List (Str × Str)) :=
  files_list.foldlM (fun acc file_name =>
    match getChecksAttr st (cs "_defaultInfraChecks") with
    | none => .error (.attributeError (cs "_defaultInfraChecks"))
    | some enabled =>
      .ok (acc ++ registerNames.filterMap (fun n =>
        if enabled.contains n then some (n, file_name) else none))) []

/-! ## helper_utils.load_plugin and DesignCompliance.check_for_other_compliance -/

/-- A loaded plugin module, identified by its name; its run capability is
modelled by recording the (module, files) invocation. -/
abbrev PluginModule := Str

/-- helper_utils.load_plugin over an import environment mapping a module name
to its module or to an ImportError: the except-clause converts the error into
None with a logged message. -/
def load_plugin (importModule : Str → Except Unit PluginModule)
    (plugin : Str) : Option PluginModule :=
  match importModule plugin with
  | .ok m => some m
  | .error _ => none

/-- The for-loop body of check_for_other_compliance: load each plugin in turn
and call compliance_check_plugin.run(filesList=files_list); there is no None
check, so a failed load dereferences None and raises AttributeError. -/
def pluginLoop (importModule : Str → Except Unit PluginModule)
    (files_list : List Str) :
    List Str → List (PluginModule × List Str) →
    Except PyError (List (PluginModule × List Str))
  | [], acc => .ok acc
  | plugin :: rest, acc =>
    match load_plugin importModule plugin with
    | some m => pluginLoop importModule files_list rest (acc ++ [(m, files_list)])
    | none => .error (.attributeError (cs "run"))

/-- design_compliance_check.DesignCompliance.check_for_other_compliance's
plugin loop over the discovered plugins.  The ok result is the list of
plugin run invocations performed. -/
def check_for_other_compliance (importModule : Str → Except Unit PluginModule)
    (plugins : List Str) (files_list : List Str) :
    Except PyError (List (PluginModule × List Str)) :=
  pluginLoop importModule files_list plugins []

/-! ## DesignCompliance.check_if_debug_enabled and the call extractor -/

/-- The func part of a Python ast.Call node: a bare name or anything else. -/
inductive FuncExpr where
  | name (id : Str)
  | other
deriving DecidableEq

/-- An ast.Call node (only the func part matters to the sources). -/
structure CallNode where
  func : FuncExpr
deriving DecidableEq

/-- helper_utils.get_function_calls_from_file applied to the Call nodes of a
parsed file: collect into a set the id of every call whose func is a bare
Name (the Python set is modelled by a deduplicated list). -/
def get_function_calls_from_file (calls : List CallNode) : List Str :=
  (calls.filterMap (fun c =>
    match c.func with
    | .name id => some id
    | .other => none)).dedup

/-- The debugging-enabled error message printed by check_if_debug_enabled. -/
def debugMsg (file_name : Str) : Str :=
  ERROR_MSG ++ cs " " ++ file_name ++ cs " has debugging enabled!"

/-- The print-statements error message printed by check_if_debug_enabled. -/
def printMsg (file_name : Str) : Str :=
  ERROR_MSG ++ cs " " ++ file_name ++ cs " contains print statements!"

/-- design_compliance_check.DesignCompliance.check_if_debug_enabled: flag the
file once if a debugger import or trace call is present, once if print is
among the called names; the result pairs the printed flag messages with
whether sys.exit(1) is reached (the set is non-empty). -/
def check_if_debug_enabled (file_name : Str)
    (imported_modules function_calls : List Str) : List Str × Bool :=
  let debugFlag :=
    imported_modules.contains (cs "ipdb") ||
    imported_modules.contains (cs "pdb") ||
    function_calls.contains (cs "ipdb.set_trace") ||
    function_calls.contains (cs "pdb.set_trace")
  let msgs :=
    (if debugFlag then [debugMsg file_name] else []) ++
    (if function_calls.contains (cs "print") then [printMsg file_name] else [])
  (msgs, !msgs.isEmpty)

/-! ## Concrete instances used by witnesses -/

/-- A concrete git environment inside a repository on branch main. -/
def envW : GitEnv :=
  { insideRepo := true
    currentBranch := cs "main"
    staged := [cs "s.py"]
    diff := fun _ _ => [cs "d.py"] }

/-- Concrete driver arguments: no pre-commit flag, no pre-merge pair, one path. -/
def argsW : Args :=
  { pre_commit_check := false
    pre_merge_check := none
    path := some [cs "p.py"] }

/-- A concrete import environment where check_bad fails with ImportError and
every other module loads. -/
def importEnvW (p : Str) : Except Unit PluginModule :=
  if p == cs "check_bad" then .error () else .ok p

/-- A concrete parsed file with two bare print calls and one other call. -/
def callsW : List CallNode :=
  [⟨.name (cs "print")⟩, ⟨.name (cs "print")⟩, ⟨.other⟩]

/-! ## Helper lemmas -/

/-- A successful pyMatchCore output is the input itself, which contains no
newline and satisfies the length and suffix conditions of the expression. -/
theorem pyMatchCore_props {t u : Str} (h : pyMatchCore t = some u) :
    u = t ∧ t.contains '\n' = false ∧
    (3 ≤ t.length && List.isSuffixOf ['p', 'y'] t) = true := by
  unfold pyMatchCore at h
  split at h
  · exact absurd h (by simp)
  · split at h
    · rename_i hnl hcond
      cases h
      exact ⟨rfl, Bool.of_not_eq_true hnl, hcond⟩
    · exact absurd h (by simp)

/-- A string satisfying the pyMatchCore conditions matches as its own group(0). -/
theorem pyMatchCore_of_props {t : Str}
    (h1 : t.contains '\n' = false)
    (h2 : (3 ≤ t.length && List.isSuffixOf ['p', 'y'] t) = true) :
    pyMatchCore t = some t := by
  unfold pyMatchCore
  rw [h1]
  simp [h2]

/-- pyMatch is idempotent on its own outputs. -/
theorem pyMatch_fix {s t : Str} (h : pyMatch s = some t) : pyMatch t = some t := by
  unfold pyMatch at h
  obtain ⟨rfl, h1, h2⟩ := pyMatchCore_props h
  have hlast : ¬ (if s.getLast? = some '\n' then s.dropLast else s).getLast?
      = some '\n' := by
    intro hl
    have hmem := List.mem_of_getLast?_eq_some hl
    rw [← List.elem_iff] at hmem
    simp only [List.contains] at h1
    rw [h1] at hmem
    cases hmem
  unfold pyMatch
  rw [if_neg hlast]
  exact pyMatchCore_of_props h1 h2

/-- filterMap with a function that fixes every member of a list is the identity. -/
theorem filterMap_eq_self_of_fix {f : Str → Option Str} :
    ∀ m : List Str, (∀ x ∈ m, f x = some x) → m.filterMap f = m := by
  intro m
  induction m with
  | nil => intro _; rfl
  | cons a l ih =>
    intro h
    rw [List.filterMap_cons, h a (by simp)]
    rw [ih (fun x hx => h x (by simp [hx]))]

/-! ## Claim theorems -/

/-- C1: for every pair of equal branch names, get_diff_between_branches
returns the empty file list as a normal (non-error) result and performs zero
`git diff` subprocess invocations. -/
theorem diff_same_branch_short_circuit (env : GitEnv) (b : Str)
    (h : env.insideRepo = true) :
    get_diff_between_branches env (some b) (some b) = .ok ([], 0) := by
  simp [get_diff_between_branches, h]

/-- Witness for C1 at a concrete environment and branch name. -/
theorem diff_same_branch_short_circuit_witness :
    get_diff_between_branches envW (some (cs "feature")) (some (cs "feature"))
      = .ok ([], 0) :=
  diff_same_branch_short_circuit envW (cs "feature") rfl

/-- C2: check_coverage invokes the directory-level coverage tool exactly once
per distinct parent directory of the py-filtered files; in particular twice
for the three files a/x.py, a/y.py, b/z.py. -/
theorem coverage_runs_once_per_distinct_dir :
    (∀ files_list : List Str,
      numCoverageRuns files_list
        = ((filter_files files_list).map dirname).toFinset.card) ∧
    numCoverageRuns [cs "a/x.py", cs "a/y.py", cs "b/z.py"] = 2 := by
  constructor
  · intro files_list
    simp [numCoverageRuns, coverageDirs, List.card_toFinset]
  · decide

/-- C3: with the cut-off at 80, a report line carrying 87% does not flag
a/x.py, a report line carrying 79% flags it, and the violation entry keeps the
literal percentage string. -/
theorem coverage_threshold_flagging :
    CUT_OFF_CODE_COVERAGE_PCT = 80 ∧
    files_missing_coverage [cs "a/x.py"] (fun _ => [cs "a/x.py   87%"]) = [] ∧
    files_missing_coverage [cs "a/x.py"] (fun _ => [cs "a/x.py   79%"])
      = [cs "a/x.py -> 79%"] := by
  refine ⟨by decide, by decide, by decide⟩

/-- C4: whenever some requested validator name is not a key of
CODE_VALIDATOR_TO_MODULE_MAP, CodeCompliance.check raises the
unsupported-validator ComplianceViolationException with an empty invocation
trace, i.e. before invoking any validator. -/
theorem lint_unknown_validator_fails_fast (vs files : List Str)
    (h : ∃ v ∈ vs, mapLookup CODE_VALIDATOR_TO_MODULE_MAP v = none) :
    codeComplianceCheck vs files = ([], some (.unsupportedValidator vs)) := by
  have hall : vs.all
      (fun v => (mapLookup CODE_VALIDATOR_TO_MODULE_MAP v).isSome) = false := by
    rw [List.all_eq_false]
    obtain ⟨v, hv, hnone⟩ := h
    exact ⟨v, hv, by simp [hnone]⟩
  simp [codeComplianceCheck, hall]

/-- Witness for C4: requesting eslint together with flake8 fails fast. -/
theorem lint_unknown_validator_fails_fast_witness :
    codeComplianceCheck [cs "eslint", cs "flake8"] [cs "f.py"]
      = ([], some (.unsupportedValidator [cs "eslint", cs "flake8"])) :=
  lint_unknown_validator_fails_fast [cs "eslint", cs "flake8"] [cs "f.py"]
    ⟨cs "eslint", by decide, by decide⟩

/-- C5 (code bug): on any non-empty file list, DesignCompliance.check_files
raises AttributeError for _defaultInfraChecks instead of dispatching the
registered checks, for every constructor argument, because __init__ populates
_defaultTcChecks and the class defines _default_checks while the dispatch
reads _defaultInfraChecks. -/
theorem design_dispatch_attribute_error (default_checks : Option (List Str))
    (files_list : List Str) (h : files_list ≠ []) :
    check_files (designComplianceInit default_checks) files_list
      = .error (.attributeError (cs "_defaultInfraChecks")) := by
  cases files_list with
  | nil => exact absurd rfl h
  | cons f rest => rfl

/-- Witness for C5: the default-constructed driver on one file. -/
theorem design_dispatch_attribute_error_witness :
    check_files (designComplianceInit none) [cs "a.py"]
      = .error (.attributeError (cs "_defaultInfraChecks")) :=
  design_dispatch_attribute_error none [cs "a.py"] (by decide)

/-- C6 (code bug): when a plugin's import fails, load_plugin does return None
instead of propagating, but check_for_other_compliance then calls run on that
None, raising AttributeError and aborting before any remaining plugin is
processed. -/
theorem failed_plugin_load_aborts_loop
    (importModule : Str → Except Unit PluginModule) (bad : Str)
    (rest files_list : List Str) (h : importModule bad = .error ()) :
    load_plugin importModule bad = none ∧
    check_for_other_compliance importModule (bad :: rest) files_list
      = .error (.attributeError (cs "run")) := by
  have hl : load_plugin importModule bad = none := by
    unfold load_plugin
    rw [h]
  refine ⟨hl, ?_⟩
  unfold check_for_other_compliance
  unfold pluginLoop
  rw [hl]

/-- Witness for C6: check_bad fails to import, check_good is never run. -/
theorem failed_plugin_load_aborts_loop_witness :
    load_plugin importEnvW (cs "check_bad") = none ∧
    check_for_other_compliance importEnvW [cs "check_bad", cs "check_good"]
      [cs "f.py"] = .error (.attributeError (cs "run")) :=
  failed_plugin_load_aborts_loop importEnvW (cs "check_bad") [cs "check_good"]
    [cs "f.py"] rfl

/-- C7 counterexample: on captured stdout consisting of one line of pure
whitespace, execute_shell_command keeps the line, so whitespace-only lines
are not dropped as the claim states. -/
theorem stdout_whitespace_line_kept_counterexample :
    processStdout (cs " ") = [cs " "] ∧ cs " " ≠ [] ∧
    (cs " ").all isPySpace = true := by
  refine ⟨by decide, by decide, by decide⟩

/-- C7 amended: execute_shell_command splits captured stdout on newlines and
drops exactly the empty lines — a line is kept iff it is a non-empty piece of
the split — and the kept lines appear in their original order (the output is
a sublist of the split). -/
theorem stdout_drops_exactly_empty_lines (s line : Str) :
    (line ∈ processStdout s ↔ line ∈ s.splitOn '\n' ∧ line ≠ []) ∧
    (processStdout s).Sublist (s.splitOn '\n') := by
  constructor
  · simp [processStdout, List.mem_filter]
  · exact List.filter_sublist _

/-- Witness for C7 amended, at stdout "a" followed by newline, space, newline. -/
theorem stdout_drops_exactly_empty_lines_witness :
    cs "a" ∈ processStdout (cs "a\n \n") :=
  (stdout_drops_exactly_empty_lines (cs "a\n \n") (cs "a")).1.mpr
    (by refine ⟨by decide, by decide⟩)

/-- C8: filter_files is idempotent — filtering an already-filtered list
yields the same list. -/
theorem filter_files_idempotent (files_list : List Str) :
    filter_files (filter_files files_list) = filter_files files_list := by
  unfold filter_files
  apply filterMap_eq_self_of_fix
  intro x hx
  obtain ⟨a, _, ha⟩ := List.mem_filterMap.mp hx
  exact pyMatch_fix ha

/-- The two flag messages of check_if_debug_enabled differ for every file. -/
theorem debugMsg_ne_printMsg (file_name : Str) :
    debugMsg file_name ≠ printMsg file_name := by
  intro he
  unfold debugMsg printMsg at he
  have h1 := List.append_cancel_left he
  exact absurd h1 (by decide)

/-- C9: a file whose parsed call nodes contain at least one call to the bare
print function produces the print-statements flag message exactly once,
independent of how many print calls occur. -/
theorem debug_check_flags_print_once (file_name : Str)
    (imported_modules : List Str) (calls : List CallNode)
    (h : ∃ c ∈ calls, c.func = .name (cs "print")) :
    ((check_if_debug_enabled file_name imported_modules
        (get_function_calls_from_file calls)).1).count (printMsg file_name)
      = 1 := by
  have hmem : cs "print" ∈ get_function_calls_from_file calls := by
    obtain ⟨c, hc, hf⟩ := h
    unfold get_function_calls_from_file
    rw [List.mem_dedup]
    exact List.mem_filterMap.mpr ⟨c, hc, by rw [hf]⟩
  have hcont : (get_function_calls_from_file calls).contains (cs "print")
      = true := List.elem_eq_true_of_mem hmem
  unfold check_if_debug_enabled
  rw [hcont]
  simp only [if_pos rfl]
  rcases hb : (imported_modules.contains (cs "ipdb") ||
      imported_modules.contains (cs "pdb") ||
      (get_function_calls_from_file calls).contains (cs "ipdb.set_trace") ||
      (get_function_calls_from_file calls).contains (cs "pdb.set_trace")) with
    _ | _
  · simp [List.count_cons, List.count_nil]
  · simp [List.count_cons, List.count_nil, debugMsg_ne_printMsg file_name,
      Ne.symm (debugMsg_ne_printMsg file_name)]

/-- Witness for C9 at a file with two print calls and one other call. -/
theorem debug_check_flags_print_once_witness :
    ((check_if_debug_enabled (cs "a.py") [] (get_function_calls_from_file
        callsW)).1).count (printMsg (cs "a.py")) = 1 :=
  debug_check_flags_print_once (cs "a.py") [] callsW
    ⟨⟨.name (cs "print")⟩, by decide, rfl⟩

/-- C10: Compliance.get_files_list resolves the file list by fixed precedence:
the pre-commit flag wins over everything, then the pre-merge branch pair, then
explicit paths; with no mode argument the list is empty. -/
theorem get_files_list_precedence (env : GitEnv) (args : Args) :
    (args.pre_commit_check = true →
      get_files_list env args = get_files_to_be_committed env) ∧
    (args.pre_commit_check = false → ∀ src tgt,
      args.pre_merge_check = some (src, tgt) →
      get_files_list env args
        = (get_diff_between_branches env (some src) (some tgt)).map Prod.fst) ∧
    (args.pre_commit_check = false → args.pre_merge_check = none →
      ∀ ps, args.path = some ps → ps ≠ [] →
      get_files_list env args = .ok ps) ∧
    (args.pre_commit_check = false → args.pre_merge_check = none →
      (args.path = none ∨ args.path = some []) →
      get_files_list env args = .ok []) := by
  refine ⟨?_, ?_, ?_, ?_⟩
  · intro h
    simp [get_files_list, h]
  · intro h src tgt hm
    simp [get_files_list, h, hm]
  · intro h hm ps hp hne
    have hemp : ps.isEmpty = false := by
      cases ps with
      | nil => exact absurd rfl hne
      | cons a l => rfl
    simp [get_files_list, h, hm, hp, hemp]
  · intro h hm hp
    rcases hp with hp | hp <;> simp [get_files_list, h, hm, hp]

/-- Witness for C10: path mode with one explicit file resolves to that file. -/
theorem get_files_list_precedence_witness :
    get_files_list envW argsW = .ok [cs "p.py"] :=
  (get_files_list_precedence envW argsW).2.2.1 rfl rfl [cs "p.py"] rfl
    (by decide)
